import Mathlib

/-!
Verification development for `mlforecast/api.py`, a configuration-driven
forecasting pipeline runner.  The Python source is shallowly embedded below:

* pandas/dask frames are modelled by `MLF.Frame`, a schema-level view (index
  name, index dtype, ordered list of column name/dtype pairs).  Cell values are
  irrelevant to every property under study except the backtest MSE, which gets
  its own row-level model (`MLF.BtRow`).
* fallible Python code (functions that `raise`) is embedded as
  `Except String _`; the error strings are the exact messages of the source.
* the side-effecting pipeline functions (`setup_client`, `run_forecast`,
  `perform_backtest`) are embedded as trace generators: they return the list
  of observable events they perform (cluster allocation, stage execution,
  file writes, printed reports, cluster/client closes) together with a flag
  telling whether an exception propagated to the caller.  External failures
  (a stage raising) are injected as parameters, since their causes live
  outside the embedded code.
* external IO (the actual pandas/dask readers, writers, the dask cluster) is
  outside the source file; the embedding takes the materialized data as input
  and records writes as events.
-/

namespace MLF

/-- Column/index dtypes relevant to `api.py`: `is_datetime64_dtype` drives the
`ds` coercion and `is_categorical_dtype` drives the distributed-parquet index
fix; a categorical dtype carries its `known` and `ordered` flags (dask
categoricals may be only partially known). Other dtypes are collapsed into
representative tags. -/
inductive Dtype where
  | datetime64 : Dtype
  | str : Dtype
  | float : Dtype
  | int : Dtype
  | categorical (known : Bool) (ordered : Bool) : Dtype
deriving DecidableEq

/-- Schema-level view of a pandas/dask dataframe: the index name, the index
dtype and the columns in order with their dtypes.  (The embedding only covers
actual dataframes, so the `isinstance(data, (pd.DataFrame, dd_Frame))` guard
at the top of `validate_data_format` always passes.) -/
structure Frame where
  indexName : String
  indexDtype : Dtype
  cols : List (String × Dtype)
deriving DecidableEq

/-- Membership test for a column name, the embedding of Python `c in data`. -/
def hasCol (f : Frame) (c : String) : Bool :=
  f.cols.any (fun p => p.1 == c)

/-- Dtype of the first column named `c`, if any. -/
def colDtype (f : Frame) (c : String) : Option Dtype :=
  (f.cols.find? (fun p => p.1 == c)).map Prod.snd

/-- Embedding of `data.set_index(c)`: the column becomes the index (with its
dtype) and is removed from the columns. -/
def set_index (f : Frame) (c : String) : Frame :=
  { indexName := c
    indexDtype := (colDtype f c).getD Dtype.str
    cols := f.cols.eraseP (fun p => p.1 == c) }

/-- Embedding of the `ds` timestamp coercion `data['ds'] = pd.to_datetime(...)`
(resp. `dd.to_datetime`; both have the same schema effect): the `ds` column
dtype becomes `datetime64`.  Parse failures of unparseable values live in the
external library and are not modelled. -/
def to_datetime_ds (f : Frame) : Frame :=
  { f with cols := f.cols.map (fun p => if p.1 == "ds" then (p.1, Dtype.datetime64) else p) }

/-- Embedding of `validate_data_format` (api.py lines 49-67): promote or
require a `unique_id` index, require `ds` (coercing it to timestamps when
needed), require `y`; raise the source's error messages otherwise. -/
def validate_data_format (f : Frame) : Except String Frame :=
  match (if f.indexName == "unique_id" then Except.ok f
         else if hasCol f "unique_id" then Except.ok (set_index f "unique_id")
         else Except.error "unique_id not found in data.") with
  | Except.error e => Except.error e
  | Except.ok f =>
    if ¬ hasCol f "ds" then Except.error "ds column not found in data."
    else
      let f := if colDtype f "ds" == some Dtype.datetime64 then f else to_datetime_ds f
      if ¬ hasCol f "y" then Except.error "y column not found in data."
      else Except.ok f

/-- Embedding of `pd.api.types.is_categorical_dtype`. -/
def is_categorical_dtype : Dtype → Bool
  | Dtype.categorical _ _ => true
  | _ => false

/-- The two data formats of `DataFormat` exercised by `api.py`. -/
inductive DataFormat where
  | csv : DataFormat
  | parquet : DataFormat
deriving DecidableEq

/-- String form of a `DataFormat`, as interpolated into paths by the source. -/
def fmt_str : DataFormat → String
  | DataFormat.csv => "csv"
  | DataFormat.parquet => "parquet"

/-- Embedding of the categorical-index fix in `read_data` (api.py lines
93-99): when reading with dask, in parquet format, with an index named
`unique_id` of categorical dtype, the index is replaced by
`index.cat.as_known().as_ordered()`, i.e. a fully known, ordered categorical;
in every other case the frame is untouched. -/
def fix_parquet_index (is_distributed : Bool) (format : DataFormat) (data : Frame) : Frame :=
  if is_distributed
     ∧ format = DataFormat.parquet
     ∧ data.indexName = "unique_id"
     ∧ is_categorical_dtype data.indexDtype
  then { data with indexDtype := Dtype.categorical true true }
  else data

/-- Embedding of `read_data` from the materialized frame onward (api.py lines
92-100): the actual `read_{format}` reader call is external IO, so the
embedding takes the frame the reader materialized as an argument, applies the
categorical-index fix, and validates. -/
def read_data (is_distributed : Bool) (format : DataFormat) (data : Frame) : Except String Frame :=
  validate_data_format (fix_parquet_index is_distributed format data)

/-- A frame read by distributed parquet whose materialized index is
categorical but named `id` rather than `unique_id`, with a separate
`unique_id` column; the source's index fix skips it. -/
def c7_frame : Frame :=
  ⟨"id", Dtype.categorical false false,
    [("unique_id", Dtype.str), ("ds", Dtype.datetime64), ("y", Dtype.float)]⟩

/-- A registered lag transform, the payload the registry `_available_tfms`
(defined in `mlforecast.data_model`, outside `api.py`) associates to a name:
an opaque token standing for the callable itself, and the callable's declared
keyword-parameter names in positional order excluding the leading series
argument — exactly what `_available_tfms_kwargs` extracts via
`inspect.signature(tfm).parameters[1:]` (api.py lines 45-46). -/
structure RegisteredTfm where
  func : String
  params : List String
deriving DecidableEq

/-- A lag-transform spec as written in the configuration: either a bare
transform name, or a one-entry mapping from a name to keyword arguments
(`[(tfm_name, tfm_kwargs)] = tfm.items()`, api.py line 111; multi-entry
mappings raise an unpacking error in Python and are outside the claims).
Keyword-argument values are modelled as integers. -/
inductive TfmSpec where
  | bare (name : String) : TfmSpec
  | withKwargs (name : String) (kwargs : List (String × Int)) : TfmSpec
deriving DecidableEq

/-- Embedding of the unpacking at the top of the per-transform loop body
(api.py lines 110-113): a one-entry mapping splits into its name and keyword
arguments, a bare name carries the empty kwargs `()`. -/
def tfm_supplied : TfmSpec → String × List (String × Int)
  | TfmSpec.bare n => (n, [])
  | TfmSpec.withKwargs n ks => (n, ks)

/-- Embedding of the rest of the per-transform body of
`_instantiate_transforms` (api.py lines 114-121): fail with the name if it is
not registered (`raise NotImplementedError(tfm_name)`), then build the
positional-argument tuple by walking the declared parameter names in order
and keeping the values of exactly those the caller supplied. -/
def instantiate_one (reg : List (String × RegisteredTfm)) (tfm : TfmSpec) :
    Except String (String × List Int) :=
  let parts := tfm_supplied tfm
  match reg.lookup parts.1 with
  | none => Except.error parts.1
  | some r => Except.ok (r.func, r.params.filterMap (fun p => parts.2.lookup p))

/-- Embedding of the inner `for tfm in tfms` loop: instantiate each spec in
declaration order, propagating the first failure. -/
def instantiate_list (reg : List (String × RegisteredTfm)) :
    List TfmSpec → Except String (List (String × List Int))
  | [] => Except.ok []
  | t :: ts =>
    match instantiate_one reg t, instantiate_list reg ts with
    | Except.error e, _ => Except.error e
    | Except.ok _, Except.error e => Except.error e
    | Except.ok x, Except.ok xs => Except.ok (x :: xs)

/-- Embedding of the outer `for lag, tfms in config.lag_transforms.items()`
loop over the ordered lag mapping.  The Python accumulator is a
`defaultdict(list)`, so a lag whose spec list is empty never receives an
append and is absent from the result; that is reflected by dropping
empty-resolved lags. -/
def instantiate_lags (reg : List (String × RegisteredTfm)) :
    List (Nat × List TfmSpec) → Except String (List (Nat × List (String × List Int)))
  | [] => Except.ok []
  | (lag, tfms) :: rest =>
    match instantiate_list reg tfms, instantiate_lags reg rest with
    | Except.error e, _ => Except.error e
    | Except.ok _, Except.error e => Except.error e
    | Except.ok l, Except.ok ls => Except.ok (if l.isEmpty then ls else (lag, l) :: ls)

/-- Embedding of `_instantiate_transforms` (api.py lines 103-122): `None`
lag transforms resolve to the empty mapping, otherwise the lag mapping is
resolved entry by entry. -/
def instantiate_transforms (reg : List (String × RegisteredTfm))
    (lag_transforms : Option (List (Nat × List TfmSpec))) :
    Except String (List (Nat × List (String × List Int))) :=
  match lag_transforms with
  | none => Except.ok []
  | some lts => instantiate_lags reg lts

/-- Stated from the spec, for comparison with `instantiate_one`: an entry is
"a tuple of the transform's callable followed by the values of exactly those
keyword arguments the caller supplied, arranged in the callable's declared
positional-parameter order (excluding the leading series parameter), with
omitted keywords absent from the tuple". -/
def spec_resolved_entry (reg : List (String × RegisteredTfm))
    (name : String) (supplied : List (String × Int)) : String × List Int :=
  let r := (reg.lookup name).getD ⟨"", []⟩
  (r.func, (r.params.filter (fun p => (supplied.lookup p).isSome)).map
    (fun p => (supplied.lookup p).getD 0))

/-- Row of one backtest split result: a series id and the observed/predicted
target values, each possibly missing (NaN), which `fillna(0)` replaces. -/
structure BtRow where
  uid : String
  y : Option ℚ
  y_pred : Option ℚ
deriving DecidableEq

/-- Embedding of `result.fillna(0)` (api.py line 170) at row level: missing
values become 0. -/
def fillna0 (r : BtRow) : String × ℚ × ℚ :=
  (r.uid, r.y.getD 0, r.y_pred.getD 0)

/-- Mean of a list of rationals, the embedding of pandas `.mean()`; on the
empty list pandas yields NaN, here 0/0 = 0. -/
def listMean (xs : List ℚ) : ℚ :=
  xs.sum / (xs.length : ℚ)

/-- Embedding of `result['sq_err'] = (result['y'] - result['y_pred'])**2`
(api.py line 176) applied to the filled rows: id together with the per-row
squared error. -/
def sq_err_rows (rows : List BtRow) : List (String × ℚ) :=
  (rows.map fillna0).map (fun x => (x.1, (x.2.1 - x.2.2) ^ 2))

/-- Embedding of `result.groupby("unique_id")["sq_err"].mean().mean()`
(api.py line 177): the per-group means of the squared errors, one per
distinct id, then their mean.  pandas iterates the groups in sorted key
order; the final mean is invariant under the order of the per-group means,
so the embedding lists the distinct ids in first-occurrence order. -/
def split_mse (rows : List BtRow) : ℚ :=
  let se := sq_err_rows rows
  listMean (((se.map Prod.fst).dedup).map
    (fun u => listMean ((se.filter (fun x => x.1 == u)).map Prod.snd)))

/-- Stated from the spec, for comparison with `split_mse`: on rows with
concrete values, "the per-row squared errors (y - y_pred)^2 are averaged
within each unique_id group, and the reported value is the mean of those
per-group means" (macro-averaged MSE). -/
def spec_mse (rows : List (String × ℚ × ℚ)) : ℚ :=
  listMean (((rows.map Prod.fst).dedup).map
    (fun u => listMean ((rows.filter (fun r => r.1 == u)).map
      (fun r => (r.2.1 - r.2.2) ^ 2))))

/-- Stated from the spec's contrast case: the "flat mean over all rows" of
the squared errors, which the code does not report. -/
def flat_mse (rows : List BtRow) : ℚ :=
  listMean ((sq_err_rows rows).map Prod.snd)

/-- Two series with different row counts: series `a` has one row with squared
error 4, series `b` has two rows with squared errors 0 and 1. -/
def c2_rows : List BtRow :=
  [⟨"a", some 2, some 0⟩, ⟨"b", some 1, some 1⟩, ⟨"b", some 0, some 1⟩]

/-- Embedding of `output_path/name` followed by `_path_as_str` (api.py lines
74-77): both `pathlib.Path` and `S3Path` render the join as the two string
forms separated by a slash. -/
def path_join (base name : String) : String :=
  base ++ "/" ++ name

/-- Embedding of the backtest split path construction (api.py lines 171-173):
`split_path = _path_as_str(output_path/f'valid_{i}')`, then
`split_path += f'.{config.data.format}'` only when the data is not a
dask frame. -/
def split_path (output_path : String) (data_is_dask : Bool) (format : DataFormat)
    (i : Nat) : String :=
  let p := path_join output_path ("valid_" ++ toString i)
  if ¬ data_is_dask then p ++ "." ++ fmt_str format else p

/-- Embedding of the final forecast path construction (api.py lines 221-223):
`write_path = _path_as_str(output_path/'forecast')`, then
`write_path += f'.{config.data.format}'` only when the data is a pandas
frame. -/
def forecast_write_path (output_path : String) (data_is_pandas : Bool)
    (format : DataFormat) : String :=
  let p := path_join output_path "forecast"
  if data_is_pandas then p ++ "." ++ fmt_str format else p

/-- Observable events of `perform_backtest`: a file/directory write at a path,
and a printed report `Split {n} MSE: {mse}`. -/
inductive BtEvent where
  | write (path : String) : BtEvent
  | report (splitNum : Nat) (mse : ℚ) : BtEvent
deriving DecidableEq

/-- Embedding of the `for i, result in enumerate(results)` loop of
`perform_backtest` (api.py lines 169-180), with `i` the explicit enumeration
counter: each iteration fills missing values, writes the split to its path,
and prints `Split {i+1} MSE` with the group-mean-of-means error of the
filled rows (`mse.compute()` in the dask case materializes the same scalar). -/
def backtest_loop (data_is_dask : Bool) (format : DataFormat) (output_path : String) :
    Nat → List (List BtRow) → List BtEvent
  | _, [] => []
  | i, r :: rest =>
    BtEvent.write (split_path output_path data_is_dask format i)
      :: BtEvent.report (i + 1) (split_mse r)
      :: backtest_loop data_is_dask format output_path (i + 1) rest

/-- Embedding of `perform_backtest` (api.py lines 156-180) from the split
results onward: with no backtest configuration it returns immediately
(`if config.backtest is None: return`) and produces no events; otherwise it
runs the enumeration loop from counter 0 over the split results that
`fcst.backtest` (external) produced. -/
def perform_backtest (has_backtest : Bool) (data_is_dask : Bool) (format : DataFormat)
    (output_path : String) (results : List (List BtRow)) : List BtEvent :=
  if has_backtest then backtest_loop data_is_dask format output_path 0 results else []

/-- The write paths of a backtest event trace, in order. -/
def write_paths (evts : List BtEvent) : List String :=
  evts.filterMap (fun e => match e with
    | BtEvent.write p => some p
    | _ => none)

/-- The printed split numbers of a backtest event trace, in order. -/
def report_nums (evts : List BtEvent) : List Nat :=
  evts.filterMap (fun e => match e with
    | BtEvent.report n _ => some n
    | _ => none)

/-- Embedding of `config.class_kwargs.get('n_workers', 0)` (api.py line 195):
keyword arguments are an association list, `.get` with a default. -/
def kwargs_get (kwargs : List (String × Nat)) (key : String) (default : Nat) : Nat :=
  (kwargs.lookup key).getD default

/-- The three operations of `setup_client` that touch the external cluster, in
source order (api.py lines 193-196): allocating the cluster object,
connecting a `Client` to it, waiting for workers.  A failure parameter names
the operation that raises, if any. -/
inductive SetupStep where
  | allocCluster : SetupStep
  | connectClient : SetupStep
  | waitWorkers : SetupStep
deriving DecidableEq

/-- The stages of the `run_forecast` body (api.py lines 208-224), in source
order. -/
inductive Stage where
  | readData : Stage
  | mkdirOutput : Stage
  | buildModel : Stage
  | backtest : Stage
  | fit : Stage
  | predict : Stage
  | writeForecast : Stage
deriving DecidableEq

/-- Observable events of a `run_forecast` execution: the completed cluster
setup operations (the worker wait records the count waited for), the completed
pipeline stages, and the two teardown calls `client.cluster.close()` and
`client.close()`. -/
inductive Event where
  | allocCluster : Event
  | connectClient : Event
  | waitedWorkers (n : Nat) : Event
  | stage (s : Stage) : Event
  | clusterClose : Event
  | clientClose : Event
deriving DecidableEq

/-- Embedding of `setup_client` (api.py lines 189-197) as a trace generator:
the cluster class is resolved and instantiated, a client is connected, and the
client waits for `class_kwargs.get('n_workers', 0)` workers.  `fail` names the
first external operation that raises, if any; the returned flag tells whether
the exception propagated (there is no handler inside `setup_client`, so it
always does).  Events record completed operations only. -/
def setup_client (class_kwargs : List (String × Nat)) (fail : Option SetupStep) :
    List Event × Bool :=
  match fail with
  | some SetupStep.allocCluster => ([], true)
  | some SetupStep.connectClient => ([Event.allocCluster], true)
  | some SetupStep.waitWorkers => ([Event.allocCluster, Event.connectClient], true)
  | none => ([Event.allocCluster, Event.connectClient,
              Event.waitedWorkers (kwargs_get class_kwargs "n_workers" 0)], false)

/-- The stages the `try` body of `run_forecast` attempts, in source order
(api.py lines 208-224): read, mkdir and model build always run; backtest only
when a backtest configuration is present; fit, predict and the forecast write
only when a forecast configuration is present. -/
def pipeline_stages (has_backtest has_forecast : Bool) : List Stage :=
  [Stage.readData, Stage.mkdirOutput, Stage.buildModel]
    ++ (if has_backtest then [Stage.backtest] else [])
    ++ (if has_forecast then [Stage.fit, Stage.predict, Stage.writeForecast] else [])

/-- Run a list of stages in order; `fail_at` names the first stage whose
execution raises, if any.  Returns the events of the completed stages and
whether an exception was raised. -/
def run_stages (fail_at : Option Stage) : List Stage → List Event × Bool
  | [] => ([], false)
  | s :: rest =>
    if fail_at = some s then ([], true)
    else
      let r := run_stages fail_at rest
      (Event.stage s :: r.1, r.2)

/-- Embedding of `run_forecast` after `parse_config` (api.py lines 203-230)
as a trace generator.  In distributed mode `setup_client` runs first, outside
the `try` block: if it raises, the exception propagates with no teardown.
Otherwise the `try` body runs the pipeline stages; the bare `except ... raise`
re-raises unchanged, and the `finally` block closes the cluster and then the
client exactly when the run is distributed, whether or not the body raised.
The returned flag tells whether an exception propagated to the caller. -/
def run_forecast (is_distributed : Bool) (class_kwargs : List (String × Nat))
    (setup_fail : Option SetupStep) (fail_at : Option Stage)
    (has_backtest has_forecast : Bool) : List Event × Bool :=
  if is_distributed then
    let setup := setup_client class_kwargs setup_fail
    if setup.2 then (setup.1, true)
    else
      let body := run_stages fail_at (pipeline_stages has_backtest has_forecast)
      (setup.1 ++ body.1 ++ [Event.clusterClose, Event.clientClose], body.2)
  else
    run_stages fail_at (pipeline_stages has_backtest has_forecast)

lemma hasCol_set_index_uid (f : Frame) (c : String) (hc : c ≠ "unique_id") :
    hasCol (set_index f "unique_id") c = hasCol f c := by
  show (f.cols.eraseP (fun p => p.1 == "unique_id")).any (fun p => p.1 == c)
      = f.cols.any (fun p => p.1 == c)
  induction f.cols with
  | nil => rfl
  | cons p t ih =>
    rw [List.eraseP_cons]
    by_cases h : (p.1 == "unique_id") = true
    · have hpc : (p.1 == c) = false := by
        simp only [beq_iff_eq] at h
        rw [beq_eq_false_iff_ne]
        intro hEq
        exact hc (hEq.symm.trans h)
      rw [h]
      simp [List.any_cons, hpc]
    · rw [Bool.not_eq_true] at h
      rw [h]
      simp [List.any_cons, ih]

lemma hasCol_to_datetime_ds (f : Frame) (c : String) :
    hasCol (to_datetime_ds f) c = hasCol f c := by
  show (f.cols.map fun p => if p.1 == "ds" then (p.1, Dtype.datetime64) else p).any
        (fun p => p.1 == c)
      = f.cols.any (fun p => p.1 == c)
  induction f.cols with
  | nil => rfl
  | cons p t ih =>
    rw [List.map_cons, List.any_cons, List.any_cons, ih]
    by_cases h : (p.1 == "ds") = true
    · rw [if_pos h]
    · rw [if_neg h]

/-- Claim C4: a frame whose index is not named `unique_id` and that has no
`unique_id` column fails with the unique_id-not-found error; a frame with a
valid `unique_id` index or column but no `ds` column fails with the
ds-not-found error; a frame with valid `unique_id` and `ds` but no `y` column
fails with the y-not-found error; and a frame missing all three fails at the
`unique_id` check first. -/
theorem c4_schema_error_order :
    (∀ f : Frame, f.indexName ≠ "unique_id" → hasCol f "unique_id" = false →
      validate_data_format f = Except.error "unique_id not found in data.")
    ∧ (∀ f : Frame, (f.indexName = "unique_id" ∨ hasCol f "unique_id" = true) →
      hasCol f "ds" = false →
      validate_data_format f = Except.error "ds column not found in data.")
    ∧ (∀ f : Frame, (f.indexName = "unique_id" ∨ hasCol f "unique_id" = true) →
      hasCol f "ds" = true → hasCol f "y" = false →
      validate_data_format f = Except.error "y column not found in data.")
    ∧ (∀ f : Frame, f.indexName ≠ "unique_id" → hasCol f "unique_id" = false →
      hasCol f "ds" = false → hasCol f "y" = false →
      validate_data_format f = Except.error "unique_id not found in data.") := by
  refine ⟨?_, ?_, ?_, ?_⟩
  · intro f h1 h2
    simp [validate_data_format, h1, h2]
  · intro f h1 h2
    rcases h1 with h1 | h1
    · simp [validate_data_format, h1, h2]
    · by_cases hIdx : f.indexName = "unique_id"
      · simp [validate_data_format, hIdx, h2]
      · have h2' : hasCol (set_index f "unique_id") "ds" = false := by
          rw [hasCol_set_index_uid f "ds" (by decide)]; exact h2
        simp [validate_data_format, hIdx, h1, h2']
  · intro f h1 h2 h3
    rcases h1 with h1 | h1
    · by_cases hdt : colDtype f "ds" = some Dtype.datetime64
      · simp [validate_data_format, h1, h2, hdt, h3]
      · have h3' : hasCol (to_datetime_ds f) "y" = false := by
          rw [hasCol_to_datetime_ds]; exact h3
        simp [validate_data_format, h1, h2, hdt, h3']
    · by_cases hIdx : f.indexName = "unique_id"
      · by_cases hdt : colDtype f "ds" = some Dtype.datetime64
        · simp [validate_data_format, hIdx, h2, hdt, h3]
        · have h3' : hasCol (to_datetime_ds f) "y" = false := by
            rw [hasCol_to_datetime_ds]; exact h3
          simp [validate_data_format, hIdx, h2, hdt, h3']
      · have h2' : hasCol (set_index f "unique_id") "ds" = true := by
          rw [hasCol_set_index_uid f "ds" (by decide)]; exact h2
        have h3' : hasCol (set_index f "unique_id") "y" = false := by
          rw [hasCol_set_index_uid f "y" (by decide)]; exact h3
        by_cases hdt : colDtype (set_index f "unique_id") "ds" = some Dtype.datetime64
        · simp [validate_data_format, hIdx, h1, h2', hdt, h3']
        · have h3'' : hasCol (to_datetime_ds (set_index f "unique_id")) "y" = false := by
            rw [hasCol_to_datetime_ds]; exact h3'
          simp [validate_data_format, hIdx, h1, h2', hdt, h3'']
  · intro f h1 h2 _ _
    simp [validate_data_format, h1, h2]

/-- Witness for C4 at three concrete frames, one per missing column, plus a
frame missing all three. -/
theorem c4_schema_error_order_witness :
    validate_data_format ⟨"idx", Dtype.str, [("ds", Dtype.datetime64), ("y", Dtype.float)]⟩
      = Except.error "unique_id not found in data."
    ∧ validate_data_format ⟨"unique_id", Dtype.str, [("y", Dtype.float)]⟩
      = Except.error "ds column not found in data."
    ∧ validate_data_format ⟨"unique_id", Dtype.str, [("ds", Dtype.datetime64)]⟩
      = Except.error "y column not found in data."
    ∧ validate_data_format ⟨"idx", Dtype.str, [("a", Dtype.float)]⟩
      = Except.error "unique_id not found in data." :=
  ⟨c4_schema_error_order.1 _ (by decide) (by decide),
   c4_schema_error_order.2.1 _ (Or.inl rfl) (by decide),
   c4_schema_error_order.2.2.1 _ (Or.inl rfl) (by decide) (by decide),
   c4_schema_error_order.2.2.2 _ (by decide) (by decide) (by decide) (by decide)⟩

/-- Claim C8: a frame that is already valid (index named `unique_id`, `ds`
column present with timestamp dtype, `y` column present) is returned
unchanged by `validate_data_format`, and validation is idempotent on it:
feeding the validated result back through validation gives the same answer. -/
theorem c8_validate_idempotent (f : Frame)
    (hIdx : f.indexName = "unique_id")
    (hds : colDtype f "ds" = some Dtype.datetime64)
    (hy : hasCol f "y" = true) :
    validate_data_format f = Except.ok f
    ∧ (validate_data_format f).bind validate_data_format = validate_data_format f := by
  have hds' : hasCol f "ds" = true := by
    unfold hasCol
    unfold colDtype at hds
    rcases hfind : f.cols.find? (fun p => p.1 == "ds") with _ | p
    · rw [hfind] at hds; simp at hds
    · have := List.find?_some hfind
      rw [List.any_eq_true]
      exact ⟨p, List.mem_of_find?_eq_some hfind, this⟩
  have h1 : validate_data_format f = Except.ok f := by
    simp [validate_data_format, hIdx, hds', hds, hy]
  exact ⟨h1, by rw [h1]; simpa [Except.bind] using h1⟩

/-- Witness for C8 at a concrete already-valid frame. -/
theorem c8_validate_idempotent_witness :
    validate_data_format ⟨"unique_id", Dtype.str, [("ds", Dtype.datetime64), ("y", Dtype.float)]⟩
      = Except.ok ⟨"unique_id", Dtype.str, [("ds", Dtype.datetime64), ("y", Dtype.float)]⟩ :=
  (c8_validate_idempotent _ rfl (by decide) (by decide)).1

/-- Counterexample to claim C7 as stated: `c7_frame` is a distributed-parquet
read whose materialized frame has a categorical index, yet `read_data` leaves
that index exactly as read before validation — it is not forced into a fully
known, ordered categorical, because the source additionally requires the
index to be named `unique_id` (api.py line 96), a condition the claim omits. -/
theorem c7_counterexample :
    is_categorical_dtype c7_frame.indexDtype = true
    ∧ fix_parquet_index true DataFormat.parquet c7_frame = c7_frame
    ∧ (fix_parquet_index true DataFormat.parquet c7_frame).indexDtype
        ≠ Dtype.categorical true true := by
  refine ⟨rfl, rfl, ?_⟩
  decide

/-- Claim C7 (amended): for a distributed-mode read of parquet data whose
materialized frame has a categorical index named `unique_id`, `read_data`
forces that index into a fully known, ordered categorical before validation;
for non-parquet formats, non-distributed reads, non-categorical indices, or
indices not named `unique_id`, the index is left as read. -/
theorem c7_parquet_index_amended :
    (∀ (k o : Bool) (f : Frame), f.indexName = "unique_id" →
      f.indexDtype = Dtype.categorical k o →
      fix_parquet_index true DataFormat.parquet f
        = { f with indexDtype := Dtype.categorical true true })
    ∧ (∀ (d : Bool) (fmt : DataFormat) (f : Frame),
      (d = false ∨ fmt ≠ DataFormat.parquet
        ∨ is_categorical_dtype f.indexDtype = false ∨ f.indexName ≠ "unique_id") →
      fix_parquet_index d fmt f = f) := by
  constructor
  · intro k o f hname hdty
    have hcat : is_categorical_dtype f.indexDtype = true := by
      rw [hdty]; rfl
    unfold fix_parquet_index
    rw [if_pos ⟨rfl, rfl, hname, hcat⟩]
  · intro d fmt f h
    unfold fix_parquet_index
    rcases h with h | h | h | h
    · rw [if_neg]
      rintro ⟨hd, -⟩
      rw [h] at hd
      exact Bool.false_ne_true hd
    · rw [if_neg]
      rintro ⟨-, hfmt, -⟩
      exact h hfmt
    · rw [if_neg]
      rintro ⟨-, -, -, hcat⟩
      rw [h] at hcat
      exact Bool.false_ne_true hcat
    · rw [if_neg]
      rintro ⟨-, -, hname, -⟩
      exact h hname

/-- Witness for the amended C7: the fix fires on a distributed-parquet frame
with an unknown, unordered categorical `unique_id` index, and three frames
outside the amended condition are left untouched. -/
theorem c7_parquet_index_amended_witness :
    fix_parquet_index true DataFormat.parquet
        ⟨"unique_id", Dtype.categorical false false, [("y", Dtype.float)]⟩
      = ⟨"unique_id", Dtype.categorical true true, [("y", Dtype.float)]⟩
    ∧ fix_parquet_index false DataFormat.parquet
        ⟨"unique_id", Dtype.categorical false false, []⟩
      = ⟨"unique_id", Dtype.categorical false false, []⟩
    ∧ fix_parquet_index true DataFormat.csv
        ⟨"unique_id", Dtype.categorical false false, []⟩
      = ⟨"unique_id", Dtype.categorical false false, []⟩
    ∧ fix_parquet_index true DataFormat.parquet ⟨"unique_id", Dtype.str, []⟩
      = ⟨"unique_id", Dtype.str, []⟩ :=
  ⟨c7_parquet_index_amended.1 false false _ rfl rfl,
   c7_parquet_index_amended.2 false DataFormat.parquet _ (Or.inl rfl),
   c7_parquet_index_amended.2 true DataFormat.csv _ (Or.inr (Or.inl (by decide))),
   c7_parquet_index_amended.2 true DataFormat.parquet _ (Or.inr (Or.inr (Or.inl rfl)))⟩

lemma filterMap_lookup_eq_filter_map (params : List String) (kw : List (String × Int)) :
    params.filterMap (fun p => kw.lookup p)
      = (params.filter (fun p => (kw.lookup p).isSome)).map (fun p => (kw.lookup p).getD 0) := by
  induction params with
  | nil => rfl
  | cons q qs ih =>
    rcases hq : kw.lookup q with _ | v
    · simp [List.filterMap_cons, List.filter_cons, hq, ih]
    · simp [List.filterMap_cons, List.filter_cons, hq, ih]

lemma instantiate_one_of_registered (reg : List (String × RegisteredTfm)) (t : TfmSpec)
    (h : (reg.lookup (tfm_supplied t).1).isSome = true) :
    instantiate_one reg t
      = Except.ok (spec_resolved_entry reg (tfm_supplied t).1 (tfm_supplied t).2) := by
  unfold instantiate_one spec_resolved_entry
  rcases hl : reg.lookup (tfm_supplied t).1 with _ | r
  · rw [hl] at h; simp at h
  · simp only [hl, Option.getD_some]
    rw [filterMap_lookup_eq_filter_map]

lemma instantiate_list_of_registered (reg : List (String × RegisteredTfm))
    (ts : List TfmSpec)
    (h : ∀ t ∈ ts, (reg.lookup (tfm_supplied t).1).isSome = true) :
    instantiate_list reg ts
      = Except.ok (ts.map (fun t =>
          spec_resolved_entry reg (tfm_supplied t).1 (tfm_supplied t).2)) := by
  induction ts with
  | nil => rfl
  | cons t ts ih =>
    have h1 := instantiate_one_of_registered reg t (h t (List.mem_cons_self t ts))
    have h2 := ih (fun u hu => h u (List.mem_cons_of_mem t hu))
    unfold instantiate_list
    rw [h1, h2]
    rfl

/-- Claim C3: with every named transform registered, resolution maps each lag
to an ordered list with one entry per declared transform in declaration order;
each entry is the transform's callable followed by the values of exactly the
supplied keyword arguments, in the callable's declared positional-parameter
order, omitted keywords absent (`spec_resolved_entry` states this reading of
the spec); a configuration declaring no lag transforms resolves to the empty
mapping; and the spec's concrete example resolves as the claim says.  (Each
lag is required to declare at least one transform; the Python accumulator is
a `defaultdict`, so a lag declaring none would be dropped from the result.) -/
theorem c3_transform_resolution :
    (∀ reg : List (String × RegisteredTfm), instantiate_transforms reg none = Except.ok [])
    ∧ (∀ (reg : List (String × RegisteredTfm)) (lts : List (Nat × List TfmSpec)),
        (∀ e ∈ lts, ∀ t ∈ e.2, (reg.lookup (tfm_supplied t).1).isSome = true) →
        (∀ e ∈ lts, e.2 ≠ []) →
        instantiate_transforms reg (some lts)
          = Except.ok (lts.map (fun e => (e.1, e.2.map (fun t =>
              spec_resolved_entry reg (tfm_supplied t).1 (tfm_supplied t).2)))))
    ∧ instantiate_transforms
        [("rolling_mean", ⟨"rolling_mean", []⟩),
         ("rolling_std", ⟨"rolling_std", ["window_size"]⟩)]
        (some [(7, [TfmSpec.bare "rolling_mean",
                    TfmSpec.withKwargs "rolling_std" [("window_size", 14)]])])
      = Except.ok [(7, [("rolling_mean", []), ("rolling_std", [14])])] := by
  refine ⟨fun _ => rfl, ?_, rfl⟩
  intro reg lts hreg hne
  show instantiate_lags reg lts = _
  induction lts with
  | nil => rfl
  | cons e rest ih =>
    have h1 := instantiate_list_of_registered reg e.2
      (hreg e (List.mem_cons_self e rest))
    have h2 := ih (fun u hu t ht => hreg u (List.mem_cons_of_mem e hu) t ht)
      (fun u hu => hne u (List.mem_cons_of_mem e hu))
    have hne1 : (e.2.map (fun t =>
        spec_resolved_entry reg (tfm_supplied t).1 (tfm_supplied t).2)).isEmpty = false := by
      rcases he : e.2 with _ | ⟨t, ts⟩
      · exact absurd he (hne e (List.mem_cons_self e rest))
      · rfl
    rcases e with ⟨lag, tfms⟩
    unfold instantiate_lags
    rw [h1, h2]
    simp [hne1]

/-- Witness for C3 at the spec's concrete example: both the registered-names
hypothesis and the nonempty-lag hypothesis are discharged on the
`rolling_mean`/`rolling_std` registry, and the resolved mapping is computed
through the theorem's general clause. -/
theorem c3_transform_resolution_witness :
    instantiate_transforms
        [("rolling_mean", ⟨"rolling_mean", []⟩),
         ("rolling_std", ⟨"rolling_std", ["window_size"]⟩)]
        (some [(7, [TfmSpec.bare "rolling_mean",
                    TfmSpec.withKwargs "rolling_std" [("window_size", 14)]])])
      = Except.ok [(7, [("rolling_mean", []), ("rolling_std", [14])])] := by
  rw [c3_transform_resolution.2.1 _ _ (by decide) (by decide)]
  rfl

/-- Claim C2: the MSE `perform_backtest` reports for a split (`split_mse`,
the value printed by `backtest_loop`) is the macro-averaged MSE of the spec
(`spec_mse`): per-row squared errors averaged within each `unique_id` group,
then the mean of the per-group means.  In particular, on two series with
different row counts (`c2_rows`) the reported value is the mean
`(4/1 + (0+1)/2) / 2 = 9/4` of the two per-series mean squared errors, and
not the flat per-row mean `(4+0+1)/3 = 5/3`. -/
theorem c2_backtest_mse_macro_averaged :
    (∀ rows : List (String × ℚ × ℚ),
      split_mse (rows.map (fun r => ⟨r.1, some r.2.1, some r.2.2⟩)) = spec_mse rows)
    ∧ split_mse c2_rows
        = (((2 : ℚ) - 0) ^ 2 / 1 + (((1 : ℚ) - 1) ^ 2 + ((0 : ℚ) - 1) ^ 2) / 2) / 2
    ∧ flat_mse c2_rows
        = (((2 : ℚ) - 0) ^ 2 + ((1 : ℚ) - 1) ^ 2 + ((0 : ℚ) - 1) ^ 2) / 3
    ∧ split_mse c2_rows ≠ flat_mse c2_rows := by
  have hdedup : (["a", "b", "b"] : List String).dedup = ["a", "b"] := by decide
  have hba : (("b" == "a") : Bool) = false := by decide
  have hab : (("a" == "b") : Bool) = false := by decide
  have hbb : (("b" == "b") : Bool) = true := by decide
  have haa : (("a" == "a") : Bool) = true := by decide
  have hsplit : split_mse c2_rows = 9 / 4 := by
    norm_num [c2_rows, split_mse, sq_err_rows, fillna0, listMean, hdedup, hba, hab, hbb, haa,
      List.filter]
  have hflat : flat_mse c2_rows = 5 / 3 := by
    norm_num [c2_rows, flat_mse, sq_err_rows, fillna0, listMean]
  refine ⟨?_, ?_, ?_, ?_⟩
  · intro rows
    simp [split_mse, spec_mse, sq_err_rows, fillna0, List.map_map, List.filter_map,
      Function.comp_def]
  · rw [hsplit]; norm_num
  · rw [hflat]; norm_num
  · rw [hsplit, hflat]; norm_num

/-- Claim C5: single-machine (pandas) runs write the final forecast to a path
ending in `forecast.{format}` (`forecast.csv` for csv) and each backtest split
to `valid_{i}.{format}`; distributed runs write the same outputs to the
extensionless paths `forecast` and `valid_{i}`, with no format suffix. -/
theorem c5_path_extension_convention :
    ∀ (out : String) (fmt : DataFormat) (i : Nat),
      forecast_write_path out true DataFormat.csv = out ++ "/forecast.csv"
      ∧ forecast_write_path out true fmt = out ++ ("/forecast." ++ fmt_str fmt)
      ∧ split_path out false fmt i
          = out ++ ("/valid_" ++ (toString i ++ ("." ++ fmt_str fmt)))
      ∧ forecast_write_path out false fmt = out ++ "/forecast"
      ∧ split_path out true fmt i = out ++ ("/valid_" ++ toString i) := by
  intro out fmt i
  refine ⟨?_, ?_, ?_, ?_, ?_⟩
  · show ((out ++ "/" ++ "forecast") ++ "." ++ fmt_str DataFormat.csv) = _
    simp only [String.append_assoc]
    rfl
  · show ((out ++ "/" ++ "forecast") ++ "." ++ fmt_str fmt) = _
    simp only [String.append_assoc]
    rw [← String.append_assoc "/" "forecast" ("." ++ fmt_str fmt),
        ← String.append_assoc ("/" ++ "forecast") "." (fmt_str fmt)]
    rfl
  · show ((out ++ "/" ++ ("valid_" ++ toString i)) ++ "." ++ fmt_str fmt) = _
    simp only [String.append_assoc]
    congr 1
  · show (out ++ "/" ++ "forecast") = _
    simp only [String.append_assoc]
    rfl
  · show (out ++ "/" ++ ("valid_" ++ toString i)) = _
    simp only [String.append_assoc]
    congr 1

lemma write_paths_backtest_loop (d : Bool) (fmt : DataFormat) (out : String) :
    ∀ (results : List (List BtRow)) (k : Nat),
      write_paths (backtest_loop d fmt out k results)
        = (List.range results.length).map (fun j => split_path out d fmt (k + j)) := by
  intro results
  induction results with
  | nil => intro k; rfl
  | cons r rest ih =>
    intro k
    show split_path out d fmt k :: write_paths (backtest_loop d fmt out (k + 1) rest) = _
    rw [ih (k + 1), List.length_cons, List.range_succ_eq_map, List.map_cons, List.map_map]
    congr 1
    apply List.map_congr_left
    intro a _
    show split_path out d fmt (k + 1 + a) = split_path out d fmt (k + (a + 1))
    rw [Nat.add_assoc, Nat.add_comm 1 a]

lemma report_nums_backtest_loop (d : Bool) (fmt : DataFormat) (out : String) :
    ∀ (results : List (List BtRow)) (k : Nat),
      report_nums (backtest_loop d fmt out k results)
        = (List.range results.length).map (fun j => k + j + 1) := by
  intro results
  induction results with
  | nil => intro k; rfl
  | cons r rest ih =>
    intro k
    show (k + 1) :: report_nums (backtest_loop d fmt out (k + 1) rest) = _
    rw [ih (k + 1), List.length_cons, List.range_succ_eq_map, List.map_cons, List.map_map]
    congr 1
    apply List.map_congr_left
    intro a _
    show k + 1 + a + 1 = k + (a + 1) + 1
    rw [Nat.add_assoc k 1 a, Nat.add_comm 1 a]

/-- Claim C10: with a backtest configured, `perform_backtest` processes the
`n` split results strictly in increasing order — the i-th write (from zero)
goes to the `valid_{i}` path, so the files are `valid_0` … `valid_{n-1}` —
while the i-th printed report carries split number `i + 1`; the file index of
every split is therefore one less than its reported split number. -/
theorem c10_backtest_split_numbering :
    ∀ (d : Bool) (fmt : DataFormat) (out : String) (results : List (List BtRow)),
      write_paths (perform_backtest true d fmt out results)
        = (List.range results.length).map (fun i => split_path out d fmt i)
      ∧ report_nums (perform_backtest true d fmt out results)
        = (List.range results.length).map (fun i => i + 1) := by
  intro d fmt out results
  constructor
  · show write_paths (backtest_loop d fmt out 0 results) = _
    rw [write_paths_backtest_loop]
    simp
  · show report_nums (backtest_loop d fmt out 0 results) = _
    rw [report_nums_backtest_loop]
    simp

/-- Claim C9: a successful `setup_client` waits for exactly the worker count
given by the `n_workers` entry of `class_kwargs`; when that entry is absent it
waits for zero workers (no wait), never for the full requested worker set. -/
theorem c9_worker_wait_default :
    (∀ kwargs : List (String × Nat),
      (setup_client kwargs none).1
        = [Event.allocCluster, Event.connectClient,
           Event.waitedWorkers ((kwargs.lookup "n_workers").getD 0)])
    ∧ (∀ kwargs : List (String × Nat), kwargs.lookup "n_workers" = none →
      (setup_client kwargs none).1
        = [Event.allocCluster, Event.connectClient, Event.waitedWorkers 0]) := by
  constructor
  · intro kwargs
    rfl
  · intro kwargs h
    show [Event.allocCluster, Event.connectClient,
          Event.waitedWorkers (kwargs_get kwargs "n_workers" 0)] = _
    rw [kwargs_get, h]
    rfl

/-- Witness for C9: a cluster configuration whose `class_kwargs` carry no
`n_workers` entry waits for zero workers. -/
theorem c9_worker_wait_default_witness :
    (setup_client [("memory", 4)] none).1
      = [Event.allocCluster, Event.connectClient, Event.waitedWorkers 0] :=
  c9_worker_wait_default.2 [("memory", 4)] rfl

lemma run_stages_close_count (fail_at : Option Stage) :
    ∀ ss : List Stage,
      (run_stages fail_at ss).1.count Event.clusterClose = 0
      ∧ (run_stages fail_at ss).1.count Event.clientClose = 0 := by
  intro ss
  induction ss with
  | nil => exact ⟨rfl, rfl⟩
  | cons s rest ih =>
    unfold run_stages
    by_cases h : fail_at = some s
    · rw [if_pos h]
      exact ⟨rfl, rfl⟩
    · rw [if_neg h]
      simpa [List.count_cons] using ih

/-- Claim C1: in every distributed-mode run whose `setup_client` succeeds,
whatever later stage of the pipeline body raises (or none), the returned
trace contains `client.cluster.close()` and `client.close()` exactly once
each, and they are the final two events — so both closes happen before the
exception propagates to the caller, and exactly once on success as well. -/
theorem c1_cluster_teardown_exactly_once :
    ∀ (kwargs : List (String × Nat)) (fail_at : Option Stage) (hb hf : Bool),
      (run_forecast true kwargs none fail_at hb hf).1.count Event.clusterClose = 1
      ∧ (run_forecast true kwargs none fail_at hb hf).1.count Event.clientClose = 1
      ∧ ∃ pre : List Event,
          (run_forecast true kwargs none fail_at hb hf).1
            = pre ++ [Event.clusterClose, Event.clientClose] := by
  intro kwargs fail_at hb hf
  have hbody := run_stages_close_count fail_at (pipeline_stages hb hf)
  refine ⟨?_, ?_, ?_⟩
  · show ((setup_client kwargs none).1
      ++ (run_stages fail_at (pipeline_stages hb hf)).1
      ++ [Event.clusterClose, Event.clientClose]).count Event.clusterClose = 1
    rw [List.count_append, List.count_append, hbody.1]
    rfl
  · show ((setup_client kwargs none).1
      ++ (run_stages fail_at (pipeline_stages hb hf)).1
      ++ [Event.clusterClose, Event.clientClose]).count Event.clientClose = 1
    rw [List.count_append, List.count_append, hbody.2]
    rfl
  · exact ⟨(setup_client kwargs none).1 ++ (run_stages fail_at (pipeline_stages hb hf)).1,
      by rw [List.append_assoc]; rfl⟩

/-- Counterexample to claim C6 as stated: a run whose `wait_for_workers` call
raises after the cluster object was allocated (and the client connected)
propagates the failure with no `cluster.close()` and no `client.close()` in
the trace — the already-allocated cluster resources are not released, because
`setup_client` runs before the `try`/`finally` block of `run_forecast` and
has no cleanup of its own. -/
theorem c6_counterexample :
    (run_forecast true [] (some SetupStep.waitWorkers) none true true).2 = true
    ∧ Event.allocCluster ∈ (run_forecast true [] (some SetupStep.waitWorkers) none true true).1
    ∧ (run_forecast true [] (some SetupStep.waitWorkers) none true true).1.count
        Event.clusterClose = 0
    ∧ (run_forecast true [] (some SetupStep.waitWorkers) none true true).1.count
        Event.clientClose = 0 := by
  decide

/-- Claim C6 (amended): if a resource error occurs during cluster lifecycle
startup inside `setup_client` (client-connection failure or worker-wait
failure) after a cluster object has already been allocated, the run aborts
without retry — the allocation is attempted exactly once — but the
already-allocated cluster resources are NOT released before the failure
propagates: no `cluster.close()` or `client.close()` occurs.  Guaranteed
teardown applies only to failures after `setup_client` returns successfully. -/
theorem c6_setup_failure_no_release_amended :
    ∀ (kwargs : List (String × Nat)) (s : SetupStep) (fail_at : Option Stage) (hb hf : Bool),
      s ≠ SetupStep.allocCluster →
      (run_forecast true kwargs (some s) fail_at hb hf).2 = true
      ∧ (run_forecast true kwargs (some s) fail_at hb hf).1.count Event.allocCluster = 1
      ∧ (run_forecast true kwargs (some s) fail_at hb hf).1.count Event.clusterClose = 0
      ∧ (run_forecast true kwargs (some s) fail_at hb hf).1.count Event.clientClose = 0 := by
  intro kwargs s fail_at hb hf hs
  cases s with
  | allocCluster => exact absurd rfl hs
  | connectClient => exact ⟨rfl, rfl, rfl, rfl⟩
  | waitWorkers => exact ⟨rfl, rfl, rfl, rfl⟩

/-- Witness for the amended C6: the concrete worker-wait failure from the
counterexample, with the allocation performed exactly once and no release. -/
theorem c6_setup_failure_no_release_amended_witness :
    (run_forecast true [("n_workers", 2)] (some SetupStep.waitWorkers) none true true).2 = true
    ∧ (run_forecast true [("n_workers", 2)] (some SetupStep.waitWorkers) none true true).1.count
        Event.allocCluster = 1
    ∧ (run_forecast true [("n_workers", 2)] (some SetupStep.waitWorkers) none true true).1.count
        Event.clusterClose = 0
    ∧ (run_forecast true [("n_workers", 2)] (some SetupStep.waitWorkers) none true true).1.count
        Event.clientClose = 0 :=
  c6_setup_failure_no_release_amended [("n_workers", 2)] SetupStep.waitWorkers none true true
    (by decide)

end MLF
